import Mathlib

/-!
Verification of the session/state-management and dispatch core of the
puppeteer-mcp server (src/src/index.ts, src/src/handlers/*, src/state.ts).

The embedding models:
  * `ServerState` — the mutable session record (`createState` in src/state.ts):
    current browser handle, pageId → page-handle map, stored default viewport,
    pipe-disconnection flag.
  * `Provider` — the capability provider (the puppeteer library) as an oracle:
    each provider operation's outcome (`Except String α`: a result, or a thrown
    error message) is a field, so theorems quantify over provider behaviour.
  * `M α` — handlers run in an explicit state + trace + exception monad:
    `ServerState → List Event → ServerState × List Event × Except String α`.
    The trace records every provider call and registration, in program order,
    so ordering claims ("setViewport before the page is registered") are
    statements about the trace list.
  * One Lean definition per handler, translated line by line from the source,
    plus the dispatch switch (`handleToolCall`) and its try/catch wrapper
    (`dispatchToolCall`).
Browser and page handles are `Nat` stand-ins for the provider's live objects.
-/

namespace PuppeteerMCP

/-- Viewport configuration, after puppeteer's `Viewport` as used by the tool
schema (width, height, scale factor, mobile/touch/orientation flags). -/
structure Viewport where
  width : Nat
  height : Nat
  deviceScaleFactor : Nat := 1
  isMobile : Bool := false
  hasTouch : Bool := false
  isLandscape : Bool := false
deriving DecidableEq

/-- A cookie descriptor (`CookieParam`): name and value mandatory, the match
keys optional.  Only identity matters for the claims; extra optional fields of
the source type add nothing to the model. -/
structure Cookie where
  name : String
  value : String
  domain : Option String := none
  path : Option String := none
deriving DecidableEq

/-- A DOM element handle as returned by `page.$(selector)`: the only part the
handlers consult is its `textContent`, which in the DOM is a string or null. -/
structure Element where
  textContent : Option String
deriving DecidableEq

/-- A JavaScript number, separating the values that matter to JSON
serialization: NaN and the two infinities serialize as `null`; finite values
are modelled by integers (the handlers never compute with them). -/
inductive JSNum where
  | nan
  | inf
  | negInf
  | finite (n : Int)
deriving DecidableEq

/-- A JavaScript value as returned by `page.evaluate`, restricted to the
primitive shapes the serialization claims are about. -/
inductive JSValue where
  | undef
  | null
  | bool (b : Bool)
  | num (n : JSNum)
  | str (s : String)
deriving DecidableEq

/-- Escape one character for a JSON string literal. -/
def jsonEscapeChar (c : Char) : String :=
  if c = '"' then "\\\""
  else if c = '\\' then "\\\\"
  else if c = '\n' then "\\n"
  else String.singleton c

/-- Escape a string for inclusion in a JSON string literal. -/
def jsonEscape (s : String) : String :=
  String.join (s.data.map jsonEscapeChar)

/-- Models ECMAScript `JSON.stringify` on the primitive values above:
`undefined` is not serializable (the call returns undefined, here `none`);
`null`, booleans and strings serialize in the usual way; NaN and infinite
numbers serialize as the literal text `null`. -/
def jsonStringify : JSValue → Option String
  | JSValue.undef => none
  | JSValue.null => some "null"
  | JSValue.bool b => some (if b then "true" else "false")
  | JSValue.num JSNum.nan => some "null"
  | JSValue.num JSNum.inf => some "null"
  | JSValue.num JSNum.negInf => some "null"
  | JSValue.num (JSNum.finite n) => some (toString n)
  | JSValue.str s => some ("\"" ++ jsonEscape s ++ "\"")

/-- Interpolation of a possibly-undefined string into a template literal:
`` `${x}` `` renders JavaScript `undefined` as the text `undefined`. -/
def interpolateUndef : Option String → String
  | some s => s
  | none => "undefined"

/-- Interpolation of a string-or-null value into a template literal:
`` `${x}` `` renders JavaScript `null` as the text `null`. -/
def interpolateNull : Option String → String
  | some s => s
  | none => "null"

/-- JavaScript truthiness of an optional string (`if (s)`): absent and the
empty string are falsy, every other string is truthy. -/
def strTruthy : Option String → Bool
  | some s => s != ""
  | none => false

/-- Association-list lookup with string keys: the first binding wins, as in a
JS `Map` or object (whose keys are unique). -/
def alistGet {α : Type} : List (String × α) → String → Option α
  | [], _ => none
  | (k, v) :: rest, key => if k = key then some v else alistGet rest key

/-- `Map.set`: replace the value at an existing key in place, or append a new
binding. -/
def alistSet {α : Type} : List (String × α) → String → α → List (String × α)
  | [], key, a => [(key, a)]
  | (k, v) :: rest, key, a =>
      if k = key then (key, a) :: rest else (k, v) :: alistSet rest key a

/-- `Map.delete`: remove the binding for a key, if present. -/
def alistDelete {α : Type} : List (String × α) → String → List (String × α)
  | [], _ => []
  | (k, v) :: rest, key =>
      if k = key then rest else (k, v) :: alistDelete rest key

/-- The shared mutable session record, after `ServerState` in src/types.ts and
`createState` in src/state.ts. -/
structure ServerState where
  browser : Option Nat
  pages : List (String × Nat)
  currentViewport : Option Viewport
  pipeDisconnected : Bool
deriving DecidableEq

/-- `createState()`: all fields empty/absent. -/
def createState : ServerState :=
  { browser := none, pages := [], currentViewport := none, pipeDisconnected := false }

/-- The provider's launch configuration assembled by `handleLaunch`. -/
structure LaunchOptions where
  headless : Bool
  slowMo : Option Nat
  args : List String
  defaultViewport : Option Viewport
  executablePath : Option String := none
  userDataDir : Option String := none
deriving DecidableEq

/-- One observable step of a handler: a capability-provider call, or a
session-registration step, recorded in program order. -/
inductive Event where
  | browserClose (b : Nat)
  | browserLaunch (opts : LaunchOptions)
  | browserConnect (endpoint : String) (defaultViewport : Option Viewport)
  | pagesQuery (b : Nat)
  | newPage (b : Nat)
  | setViewport (pg : Nat) (v : Viewport)
  | setUserAgent (pg : Nat) (ua : String)
  | evaluateOnNewDocument (pg : Nat)
  | registerPage (id : String) (pg : Nat)
  | unregisterPage (id : String)
  | goto (pg : Nat) (url : String) (waitUntil : String)
  | click (pg : Nat) (selector : String)
  | typeText (pg : Nat) (selector text : String)
  | querySelector (pg : Nat) (selector : String)
  | evaluateScript (pg : Nat) (script : String)
  | waitForSelector (pg : Nat) (selector : String) (timeout : Nat)
  | screenshot (pg : Nat) (path : Option String) (fullPage : Bool)
  | pageClose (pg : Nat)
  | setCookie (pg : Nat) (cookies : List Cookie)
  | cookiesRead (pg : Nat) (urls : List String)
  | deleteCookie (pg : Nat) (cookies : List Cookie)
  | setRequestInterception (pg : Nat) (enable : Bool)
  | onRequest (pg : Nat) (blockResources : List String)
      (modifyHeaders : List (String × String))
deriving DecidableEq

/-- The capability provider as an oracle: the outcome of each documented
provider operation, either a value or a thrown error message. -/
structure Provider where
  launchResult : Except String Nat
  connectResult : Except String Nat
  browserCloseResult : Nat → Except String Unit
  pagesResult : Nat → Except String (List Nat)
  newPageResult : Nat → Except String Nat
  setViewportResult : Nat → Viewport → Except String Unit
  setUserAgentResult : Nat → String → Except String Unit
  evalOnNewDocResult : Nat → Except String Unit
  gotoResult : Nat → String → String → Except String Unit
  clickResult : Nat → String → Except String Unit
  typeResult : Nat → String → String → Except String Unit
  queryResult : Nat → String → Except String (Option Element)
  evalResult : Nat → String → Except String JSValue
  waitResult : Nat → String → Nat → Except String Unit
  screenshotResult : Nat → Option String → Bool → Except String Unit
  pageCloseResult : Nat → Except String Unit
  setCookieResult : Nat → List Cookie → Except String Unit
  cookiesResult : Nat → List String → Except String (List Cookie)
  deleteCookieResult : Nat → List Cookie → Except String Unit
  setInterceptResult : Nat → Bool → Except String Unit

/-- Handler computations: explicit state passing, an append-only event trace,
and JS exceptions as `Except.error` carrying the error message. -/
def M (α : Type) : Type :=
  ServerState → List Event → ServerState × List Event × Except String α

/-- Return a value, leaving state and trace unchanged. -/
def M.pure {α : Type} (a : α) : M α := fun s t => (s, t, Except.ok a)

/-- Sequence two computations; a thrown error short-circuits, keeping the
state and trace already produced (JS exceptions do not roll back mutations). -/
def M.bind {α β : Type} (x : M α) (f : α → M β) : M β := fun s t =>
  match x s t with
  | (s1, t1, Except.ok a) => f a s1 t1
  | (s1, t1, Except.error e) => (s1, t1, Except.error e)

/-- Read the session state. -/
def getS : M ServerState := fun s t => (s, t, Except.ok s)

/-- Mutate the session state. -/
def modifyS (f : ServerState → ServerState) : M Unit :=
  fun s t => (f s, t, Except.ok ())

/-- Record a registration step in the trace. -/
def emit (e : Event) : M Unit := fun s t => (s, t ++ [e], Except.ok ())

/-- `throw new Error(msg)`. -/
def throwErr {α : Type} (msg : String) : M α :=
  fun s t => (s, t, Except.error msg)

/-- Await a provider call: record the call in the trace, then produce the
provider's outcome for it. -/
def callP {α : Type} (e : Event) (r : Except String α) : M α :=
  fun s t => (s, t ++ [e], r)

/-- `getPage` (src/state.ts): look the pageId up in the map, throwing
`Page {id} not found` when absent.  Pure read, no trace, no mutation. -/
def getPage (pageId : String) : M Nat := fun s t =>
  match alistGet s.pages pageId with
  | some pg => (s, t, Except.ok pg)
  | none => (s, t, Except.error ("Page " ++ pageId ++ " not found"))

/-- `requireBrowser` (src/state.ts): the current browser handle, throwing
when none was launched.  Pure read. -/
def requireBrowser : M Nat := fun s t =>
  match s.browser with
  | some b => (s, t, Except.ok b)
  | none => (s, t, Except.error "Browser not launched. Call puppeteer_launch first.")

/-- The MCP success envelope: a list of typed content blocks. -/
structure MCPResponse where
  content : List (String × String)
deriving DecidableEq

/-- A single-text-block response. -/
def textResponse (msg : String) : MCPResponse := ⟨[("text", msg)]⟩

/-- The dynamic argument bag of a tool call, with the destructuring defaults
each handler applies (`headless = true`, `waitUntil = 'load'`,
`timeout = 30000`, `fullPage = false`, `enable = true`, empty lists). -/
structure ToolArgs where
  pageId : String := ""
  selector : String := ""
  text : String := ""
  url : String := ""
  waitUntil : String := "load"
  script : String := ""
  timeout : Nat := 30000
  path : Option String := none
  fullPage : Bool := false
  headless : Bool := true
  browserArgs : List String := []
  executablePath : Option String := none
  browserWSEndpoint : Option String := none
  userDataDir : Option String := none
  userAgent : Option String := none
  viewport : Option Viewport := none
  proxyServer : Option String := none
  stealth : Bool := false
  slowMo : Option Nat := none
  cookies : List Cookie := []
  urls : Option (List String) := none
  enable : Bool := true
  blockResources : List String := []
  modifyHeaders : List (String × String) := []
deriving DecidableEq

/-- The fixed anti-automation-detection flags appended when stealth is on. -/
def stealthFlags : List String :=
  [ "--disable-blink-features=AutomationControlled"
  , "--disable-features=VizDisplayCompositor"
  , "--disable-web-security"
  , "--disable-features=site-per-process"
  , "--disable-dev-shm-usage"
  , "--disable-background-timer-throttling"
  , "--disable-backgrounding-occluded-windows"
  , "--disable-renderer-backgrounding"
  , "--disable-extensions"
  , "--no-first-run"
  , "--no-default-browser-check"
  , "--disable-default-apps"
  , "--disable-popup-blocking" ]

/-- The stealth default user-agent string. -/
def stealthUA : String :=
  "Mozilla/5.0 (Windows NT 10.0; Win64; x64) AppleWebKit/537.36 (KHTML, like Gecko) Chrome/120.0.0.0 Safari/537.36"

/-- Launch-option assembly from `handleLaunch`: caller flags plus the two
mandatory sandbox-disabling flags, the stealth flag block when requested, and
a proxy flag when a non-empty proxy server is given. -/
def buildLaunchOptions (a : ToolArgs) : LaunchOptions :=
  { headless := a.headless
  , slowMo := a.slowMo
  , args := a.browserArgs ++ ["--no-sandbox", "--disable-setuid-sandbox"]
      ++ (if a.stealth then stealthFlags else [])
      ++ (match a.proxyServer with
          | some server => if server != "" then ["--proxy-server=" ++ server] else []
          | none => [])
  , defaultViewport := a.viewport
  , executablePath := if strTruthy a.executablePath then a.executablePath else none
  , userDataDir := if strTruthy a.userDataDir then a.userDataDir else none }

/-- The first-tab setup block of `handleLaunch`, applied to `pages[0]`:
viewport if given; user agent (explicit value wins over the stealth default);
the stealth new-document script injection. -/
def launchSetupPage (p : Provider) (a : ToolArgs) (pg : Nat) : M Unit :=
  M.bind
    (match a.viewport with
     | some v => callP (Event.setViewport pg v) (p.setViewportResult pg v)
     | none => M.pure ()) fun _ =>
  M.bind
    (if strTruthy a.userAgent then
       callP (Event.setUserAgent pg (a.userAgent.getD ""))
         (p.setUserAgentResult pg (a.userAgent.getD ""))
     else if a.stealth then
       callP (Event.setUserAgent pg stealthUA) (p.setUserAgentResult pg stealthUA)
     else M.pure ()) fun _ =>
  if a.stealth then
    callP (Event.evaluateOnNewDocument pg) (p.evalOnNewDocResult pg)
  else M.pure ()

/-- The `if (viewport || userAgent || stealth)` block of `handleLaunch`:
query the instance's open tabs and, if any, run the first-tab setup; if no
default tab exists, skip without failing. -/
def launchPostSetup (p : Provider) (a : ToolArgs) (b : Nat) : M Unit :=
  if a.viewport.isSome || strTruthy a.userAgent || a.stealth then
    M.bind (callP (Event.pagesQuery b) (p.pagesResult b)) fun pages =>
      match pages with
      | [] => M.pure ()
      | pg :: _ => launchSetupPage p a pg
  else M.pure ()

/-- The phase of `handleLaunch` after the prior browser (if any) has been
closed: record the viewport, connect to a remote endpoint or launch a new
instance, store the new handle, run first-tab setup, and report which path
was taken. -/
def launchAfterClose (p : Provider) (a : ToolArgs) : M MCPResponse :=
  M.bind (modifyS fun st => { st with currentViewport := a.viewport }) fun _ =>
  M.bind
    (if strTruthy a.browserWSEndpoint then
       callP (Event.browserConnect (a.browserWSEndpoint.getD "") a.viewport)
         p.connectResult
     else
       callP (Event.browserLaunch (buildLaunchOptions a)) p.launchResult) fun b =>
  M.bind (modifyS fun st => { st with browser := some b }) fun _ =>
  M.bind (launchPostSetup p a b) fun _ =>
  M.pure (textResponse
    ((if strTruthy a.browserWSEndpoint then "Connected to existing browser"
      else "Browser launched") ++ " successfully"))

/-- `handleLaunch` (src/handlers/launch.ts): close any existing browser,
then proceed as in `launchAfterClose`. -/
def handleLaunch (p : Provider) (a : ToolArgs) : M MCPResponse :=
  M.bind getS fun s =>
  M.bind
    (match s.browser with
     | some b => callP (Event.browserClose b) (p.browserCloseResult b)
     | none => M.pure ()) fun _ =>
  launchAfterClose p a

/-- `handleNewPage` (src/handlers/page.ts): require a browser, create a tab,
apply the stored viewport if set, then register the pageId (overwriting any
prior binding). -/
def handleNewPage (p : Provider) (a : ToolArgs) : M MCPResponse :=
  M.bind requireBrowser fun b =>
  M.bind (callP (Event.newPage b) (p.newPageResult b)) fun pg =>
  M.bind getS fun s =>
  M.bind
    (match s.currentViewport with
     | some v => callP (Event.setViewport pg v) (p.setViewportResult pg v)
     | none => M.pure ()) fun _ =>
  M.bind (modifyS fun st => { st with pages := alistSet st.pages a.pageId pg }) fun _ =>
  M.bind (emit (Event.registerPage a.pageId pg)) fun _ =>
  M.pure (textResponse ("Page " ++ a.pageId ++ " created successfully"))

/-- `handleClosePage` (src/handlers/page.ts): resolve the tab, close it via
the provider, then remove the binding. -/
def handleClosePage (p : Provider) (a : ToolArgs) : M MCPResponse :=
  M.bind (getPage a.pageId) fun pg =>
  M.bind (callP (Event.pageClose pg) (p.pageCloseResult pg)) fun _ =>
  M.bind (modifyS fun st => { st with pages := alistDelete st.pages a.pageId }) fun _ =>
  M.bind (emit (Event.unregisterPage a.pageId)) fun _ =>
  M.pure (textResponse ("Page " ++ a.pageId ++ " closed"))

/-- `handleCloseBrowser` (src/handlers/browser.ts): if a browser exists,
close it, clear the handle and the whole page map; always report success. -/
def handleCloseBrowser (p : Provider) (_a : ToolArgs) : M MCPResponse :=
  M.bind getS fun s =>
  M.bind
    (match s.browser with
     | some b =>
         M.bind (callP (Event.browserClose b) (p.browserCloseResult b)) fun _ =>
         modifyS fun st => { st with browser := none, pages := [] }
     | none => M.pure ()) fun _ =>
  M.pure (textResponse "Browser closed")

/-- `handleNavigate` (src/handlers/navigation.ts). -/
def handleNavigate (p : Provider) (a : ToolArgs) : M MCPResponse :=
  M.bind (getPage a.pageId) fun pg =>
  M.bind (callP (Event.goto pg a.url a.waitUntil) (p.gotoResult pg a.url a.waitUntil)) fun _ =>
  M.pure (textResponse ("Navigated to " ++ a.url))

/-- `handleClick` (src/handlers/interaction.ts). -/
def handleClick (p : Provider) (a : ToolArgs) : M MCPResponse :=
  M.bind (getPage a.pageId) fun pg =>
  M.bind (callP (Event.click pg a.selector) (p.clickResult pg a.selector)) fun _ =>
  M.pure (textResponse ("Clicked on " ++ a.selector))

/-- `handleType` (src/handlers/interaction.ts). -/
def handleType (p : Provider) (a : ToolArgs) : M MCPResponse :=
  M.bind (getPage a.pageId) fun pg =>
  M.bind (callP (Event.typeText pg a.selector a.text)
    (p.typeResult pg a.selector a.text)) fun _ =>
  M.pure (textResponse ("Typed \"" ++ a.text ++ "\" into " ++ a.selector))

/-- `handleGetText` (src/handlers/interaction.ts): resolve the tab, query the
selector; no match throws `Element {selector} not found`; otherwise the
element's `textContent` (read by the embedded `el => el.textContent` arrow
function, null rendering as the text `null`) is echoed after the colon. -/
def handleGetText (p : Provider) (a : ToolArgs) : M MCPResponse :=
  M.bind (getPage a.pageId) fun pg =>
  M.bind (callP (Event.querySelector pg a.selector) (p.queryResult pg a.selector)) fun el =>
  match el with
  | none => throwErr ("Element " ++ a.selector ++ " not found")
  | some element =>
      M.pure (textResponse
        ("Text from " ++ a.selector ++ ": " ++ interpolateNull element.textContent))

/-- `handleScreenshot` (src/handlers/screenshot.ts): the reported text names
the path only when a truthy path was supplied. -/
def handleScreenshot (p : Provider) (a : ToolArgs) : M MCPResponse :=
  M.bind (getPage a.pageId) fun pg =>
  M.bind (callP (Event.screenshot pg a.path a.fullPage)
    (p.screenshotResult pg a.path a.fullPage)) fun _ =>
  M.pure (textResponse
    (if strTruthy a.path then "Screenshot saved to " ++ a.path.getD ""
     else "Screenshot taken"))

/-- `handleEvaluate` (src/handlers/evaluation.ts): run the script and report
`` `Script result: ${JSON.stringify(result)}` `` — serialization via
`jsonStringify`, with a top-level undefined interpolated as `undefined`. -/
def handleEvaluate (p : Provider) (a : ToolArgs) : M MCPResponse :=
  M.bind (getPage a.pageId) fun pg =>
  M.bind (callP (Event.evaluateScript pg a.script) (p.evalResult pg a.script)) fun result =>
  M.pure (textResponse ("Script result: " ++ interpolateUndef (jsonStringify result)))

/-- `handleWaitForSelector` (src/handlers/evaluation.ts). -/
def handleWaitForSelector (p : Provider) (a : ToolArgs) : M MCPResponse :=
  M.bind (getPage a.pageId) fun pg =>
  M.bind (callP (Event.waitForSelector pg a.selector a.timeout)
    (p.waitResult pg a.selector a.timeout)) fun _ =>
  M.pure (textResponse ("Selector " ++ a.selector ++ " appeared"))

/-- `handleSetCookies` (src/handlers/cookies.ts). -/
def handleSetCookies (p : Provider) (a : ToolArgs) : M MCPResponse :=
  M.bind (getPage a.pageId) fun pg =>
  M.bind (callP (Event.setCookie pg a.cookies) (p.setCookieResult pg a.cookies)) fun _ =>
  M.pure (textResponse
    ("Set " ++ toString a.cookies.length ++ " cookie(s) for page " ++ a.pageId))

/-- The URL argument list of the provider call made by `handleGetCookies`:
`urls ? page.cookies(...urls) : page.cookies()`.  An array is always truthy
in JS, so a present list is spread (an empty list spreading to no arguments),
and an absent list takes the no-argument branch. -/
def cookiesCallUrls : Option (List String) → List String
  | some us => us
  | none => []

/-- Abstraction of `JSON.stringify(cookies, null, 2)`: a textual rendering of
the returned descriptors (the pretty-printer's exact whitespace is not
modelled; no claim depends on it). -/
def cookieRender (c : Cookie) : String :=
  "\x7b \"name\": \"" ++ jsonEscape c.name ++ "\", \"value\": \"" ++ jsonEscape c.value ++ "\" \x7d"

/-- Render a cookie list. -/
def cookiesRender (cs : List Cookie) : String :=
  "[" ++ String.intercalate ", " (cs.map cookieRender) ++ "]"

/-- `handleGetCookies` (src/handlers/cookies.ts). -/
def handleGetCookies (p : Provider) (a : ToolArgs) : M MCPResponse :=
  M.bind (getPage a.pageId) fun pg =>
  M.bind (callP (Event.cookiesRead pg (cookiesCallUrls a.urls))
    (p.cookiesResult pg (cookiesCallUrls a.urls))) fun cookies =>
  M.pure (textResponse ("Retrieved cookies: " ++ cookiesRender cookies))

/-- `handleDeleteCookies` (src/handlers/cookies.ts). -/
def handleDeleteCookies (p : Provider) (a : ToolArgs) : M MCPResponse :=
  M.bind (getPage a.pageId) fun pg =>
  M.bind (callP (Event.deleteCookie pg a.cookies) (p.deleteCookieResult pg a.cookies)) fun _ =>
  M.pure (textResponse
    ("Deleted " ++ toString a.cookies.length ++ " cookie(s) from page " ++ a.pageId))

/-- An intercepted request as seen by the registered callback: its resource
type and its current header object. -/
structure Request where
  resourceType : String
  headers : List (String × String)
deriving DecidableEq

/-- What the callback does with a request: `request.abort()` or
`request.continue({ headers })`. -/
inductive RequestAction where
  | abort
  | cont (headers : List (String × String))
deriving DecidableEq

/-- Models the JS object spread `{ ...base, ...over }` as a key-value map:
every key present in `over` maps to `over`'s value, every other key to
`base`'s value.  (The spread's key ordering is not modelled, only the
resulting mapping.) -/
def headerMerge (base over : List (String × String)) : List (String × String) :=
  base.filter (fun kv => (alistGet over kv.1).isNone) ++ over

/-- The per-request callback registered by `handleSetRequestInterception`
when enabling: abort requests whose resource type is in the block list,
continue all others with the override headers merged over the original
headers. -/
def interceptionCallback (blockResources : List String)
    (modifyHeaders : List (String × String)) (req : Request) : RequestAction :=
  if blockResources.contains req.resourceType then RequestAction.abort
  else RequestAction.cont (headerMerge req.headers modifyHeaders)

/-- `handleSetRequestInterception` (src/handlers/interception.ts): toggle
interception on the tab; when enabling, register the per-request callback
with the given block list and header overrides (recorded as an `onRequest`
trace step whose semantics is `interceptionCallback`). -/
def handleSetRequestInterception (p : Provider) (a : ToolArgs) : M MCPResponse :=
  M.bind (getPage a.pageId) fun pg =>
  M.bind (callP (Event.setRequestInterception pg a.enable)
    (p.setInterceptResult pg a.enable)) fun _ =>
  M.bind
    (if a.enable then emit (Event.onRequest pg a.blockResources a.modifyHeaders)
     else M.pure ()) fun _ =>
  M.pure (textResponse
    ("Request interception " ++ (if a.enable then "enabled" else "disabled")
      ++ " for page " ++ a.pageId))

/-- The dispatch switch of `setupToolHandlers` (src/index.ts): route the tool
name to its handler; an unregistered name throws `Unknown tool: {name}`. -/
def handleToolCall (p : Provider) (name : String) (a : ToolArgs) : M MCPResponse :=
  if name = "puppeteer_launch" then handleLaunch p a
  else if name = "puppeteer_new_page" then handleNewPage p a
  else if name = "puppeteer_navigate" then handleNavigate p a
  else if name = "puppeteer_click" then handleClick p a
  else if name = "puppeteer_type" then handleType p a
  else if name = "puppeteer_get_text" then handleGetText p a
  else if name = "puppeteer_screenshot" then handleScreenshot p a
  else if name = "puppeteer_evaluate" then handleEvaluate p a
  else if name = "puppeteer_wait_for_selector" then handleWaitForSelector p a
  else if name = "puppeteer_close_page" then handleClosePage p a
  else if name = "puppeteer_close_browser" then handleCloseBrowser p a
  else if name = "puppeteer_set_cookies" then handleSetCookies p a
  else if name = "puppeteer_get_cookies" then handleGetCookies p a
  else if name = "puppeteer_delete_cookies" then handleDeleteCookies p a
  else if name = "puppeteer_set_request_interception" then handleSetRequestInterception p a
  else throwErr ("Unknown tool: " ++ name)

/-- The registered tool names. -/
def toolNames : List String :=
  [ "puppeteer_launch", "puppeteer_new_page", "puppeteer_navigate"
  , "puppeteer_click", "puppeteer_type", "puppeteer_get_text"
  , "puppeteer_screenshot", "puppeteer_evaluate", "puppeteer_wait_for_selector"
  , "puppeteer_close_page", "puppeteer_close_browser", "puppeteer_set_cookies"
  , "puppeteer_get_cookies", "puppeteer_delete_cookies"
  , "puppeteer_set_request_interception" ]

/-- The try/catch dispatch boundary of `setupToolHandlers`: run the selected
handler; a thrown error becomes a success-shaped envelope whose text is
`Error: ` plus the message.  Total by construction — dispatch never throws. -/
def dispatchToolCall (p : Provider) (name : String) (a : ToolArgs)
    (s : ServerState) : ServerState × List Event × MCPResponse :=
  match handleToolCall p name a s [] with
  | (s1, t1, Except.ok r) => (s1, t1, r)
  | (s1, t1, Except.error e) => (s1, t1, textResponse ("Error: " ++ e))

/-! ### Shared fixtures and helper lemmas -/

/-- A provider for which every operation succeeds, used to instantiate the
witness theorems: launching yields handle 100, connecting 200, a new page on
browser `b` is handle `b + 1`. -/
def okProvider : Provider :=
  { launchResult := Except.ok 100
  , connectResult := Except.ok 200
  , browserCloseResult := fun _ => Except.ok ()
  , pagesResult := fun _ => Except.ok [0]
  , newPageResult := fun b => Except.ok (b + 1)
  , setViewportResult := fun _ _ => Except.ok ()
  , setUserAgentResult := fun _ _ => Except.ok ()
  , evalOnNewDocResult := fun _ => Except.ok ()
  , gotoResult := fun _ _ _ => Except.ok ()
  , clickResult := fun _ _ => Except.ok ()
  , typeResult := fun _ _ _ => Except.ok ()
  , queryResult := fun _ _ => Except.ok (some { textContent := some "" })
  , evalResult := fun _ _ => Except.ok JSValue.undef
  , waitResult := fun _ _ _ => Except.ok ()
  , screenshotResult := fun _ _ _ => Except.ok ()
  , pageCloseResult := fun _ => Except.ok ()
  , setCookieResult := fun _ _ => Except.ok ()
  , cookiesResult := fun _ _ => Except.ok []
  , deleteCookieResult := fun _ _ => Except.ok ()
  , setInterceptResult := fun _ _ => Except.ok () }

/-- A session with one registered page `"a" ↦ 7`, for witness theorems. -/
def stateWithPage : ServerState :=
  { createState with browser := some 5, pages := [("a", 7)] }

/-! ### C1 — dispatch catches every handler error into an `Error: ` envelope -/

/-- C1: any error thrown by the selected handler — including the
`Unknown tool` error for an unregistered name — is caught at the dispatch
boundary and converted into a success-shaped envelope whose single text
content is `Error: ` followed by the error's message; a successful handler
result passes through unchanged, so `dispatchToolCall` (a total function)
never throws for business-logic failures and always hands back a usable
session state. -/
theorem dispatch_error_envelope (p : Provider) (name : String) (a : ToolArgs)
    (s : ServerState) :
    (∀ s1 t1 e, handleToolCall p name a s [] = (s1, t1, Except.error e) →
       dispatchToolCall p name a s = (s1, t1, textResponse ("Error: " ++ e))) ∧
    (∀ s1 t1 r, handleToolCall p name a s [] = (s1, t1, Except.ok r) →
       dispatchToolCall p name a s = (s1, t1, r)) ∧
    (name ∉ toolNames →
       handleToolCall p name a s [] = (s, [], Except.error ("Unknown tool: " ++ name))) := by
  refine ⟨?_, ?_, ?_⟩
  · intro s1 t1 e h
    simp [dispatchToolCall, h]
  · intro s1 t1 r h
    simp [dispatchToolCall, h]
  · intro hn
    simp only [toolNames, List.mem_cons, List.not_mem_nil, or_false] at hn
    push_neg at hn
    obtain ⟨h1, h2, h3, h4, h5, h6, h7, h8, h9, h10, h11, h12, h13, h14, h15⟩ := hn
    simp [handleToolCall, h1, h2, h3, h4, h5, h6, h7, h8, h9, h10, h11, h12, h13,
      h14, h15, throwErr]

/-- C1 witness: dispatching the unregistered name `bogus` yields the
`Error: Unknown tool: bogus` envelope with the session state untouched. -/
theorem dispatch_error_envelope_witness :
    dispatchToolCall okProvider "bogus" {} createState
      = (createState, [], textResponse "Error: Unknown tool: bogus") := by
  have h := dispatch_error_envelope okProvider "bogus" {} createState
  exact h.1 _ _ _ (h.2.2 (by decide))

/-! ### C10 — close_page is atomic on provider failure -/

/-- C10: `handleClosePage` removes the identifier from the tab mapping only
after the provider's close succeeds: if the close throws, the session state is
returned exactly as it was (the identifier still registered), and on success
the binding is removed. -/
theorem close_page_atomic (p : Provider) (a : ToolArgs) (s : ServerState)
    (pg : Nat) (hpg : alistGet s.pages a.pageId = some pg) :
    (∀ e, p.pageCloseResult pg = Except.error e →
       handleClosePage p a s [] = (s, [Event.pageClose pg], Except.error e)) ∧
    (p.pageCloseResult pg = Except.ok () →
       handleClosePage p a s []
         = ({ s with pages := alistDelete s.pages a.pageId },
            [Event.pageClose pg, Event.unregisterPage a.pageId],
            Except.ok (textResponse ("Page " ++ a.pageId ++ " closed")))) := by
  constructor
  · intro e h
    simp [handleClosePage, M.bind, M.pure, getPage, hpg, callP, h]
  · intro h
    simp [handleClosePage, M.bind, M.pure, getPage, hpg, callP, h, modifyS, emit]

/-- C10 witness: with page `"a" ↦ 7` registered, a failing provider close
leaves the session unchanged, and a succeeding one removes the binding. -/
theorem close_page_atomic_witness :
    handleClosePage
        { okProvider with pageCloseResult := fun _ => Except.error "boom" }
        { pageId := "a" } stateWithPage []
      = (stateWithPage, [Event.pageClose 7], Except.error "boom") ∧
    handleClosePage okProvider { pageId := "a" } stateWithPage []
      = ({ stateWithPage with pages := [] },
         [Event.pageClose 7, Event.unregisterPage "a"],
         Except.ok (textResponse "Page a closed")) := by
  constructor
  · exact (close_page_atomic
      { okProvider with pageCloseResult := fun _ => Except.error "boom" }
      { pageId := "a" } stateWithPage 7 rfl).1 "boom" rfl
  · exact (close_page_atomic okProvider { pageId := "a" } stateWithPage 7 rfl).2 rfl

/-! ### C5 — evaluate's serialization of NaN, infinities and undefined -/

/-- C5: an `evaluate` whose script result is NaN or an infinite number replies
exactly `Script result: null`, while a result of `undefined` replies exactly
`Script result: undefined`, because a top-level undefined bypasses the general
serializer (`JSON.stringify` returns no string and the template literal
interpolates the JS value `undefined`). -/
theorem evaluate_serialization (p : Provider) (a : ToolArgs) (s : ServerState)
    (pg : Nat) (hpg : alistGet s.pages a.pageId = some pg) :
    (p.evalResult pg a.script = Except.ok (JSValue.num JSNum.nan) →
       handleEvaluate p a s []
         = (s, [Event.evaluateScript pg a.script],
            Except.ok (textResponse "Script result: null"))) ∧
    (p.evalResult pg a.script = Except.ok (JSValue.num JSNum.inf) →
       handleEvaluate p a s []
         = (s, [Event.evaluateScript pg a.script],
            Except.ok (textResponse "Script result: null"))) ∧
    (p.evalResult pg a.script = Except.ok (JSValue.num JSNum.negInf) →
       handleEvaluate p a s []
         = (s, [Event.evaluateScript pg a.script],
            Except.ok (textResponse "Script result: null"))) ∧
    (p.evalResult pg a.script = Except.ok JSValue.undef →
       handleEvaluate p a s []
         = (s, [Event.evaluateScript pg a.script],
            Except.ok (textResponse "Script result: undefined"))) := by
  refine ⟨?_, ?_, ?_, ?_⟩ <;> intro h <;>
    simp [handleEvaluate, M.bind, M.pure, getPage, hpg, callP, h, jsonStringify,
      interpolateUndef, textResponse]

/-- C5 witness: with page `"a" ↦ 7`, a NaN result replies
`Script result: null` and an undefined result replies
`Script result: undefined`. -/
theorem evaluate_serialization_witness :
    handleEvaluate
        { okProvider with evalResult := fun _ _ => Except.ok (JSValue.num JSNum.nan) }
        { pageId := "a" } stateWithPage []
      = (stateWithPage, [Event.evaluateScript 7 ""],
         Except.ok (textResponse "Script result: null")) ∧
    handleEvaluate okProvider { pageId := "a" } stateWithPage []
      = (stateWithPage, [Event.evaluateScript 7 ""],
         Except.ok (textResponse "Script result: undefined")) := by
  constructor
  · exact (evaluate_serialization
      { okProvider with evalResult := fun _ _ => Except.ok (JSValue.num JSNum.nan) }
      { pageId := "a" } stateWithPage 7 rfl).1 rfl
  · exact (evaluate_serialization okProvider
      { pageId := "a" } stateWithPage 7 rfl).2.2.2 rfl

/-! ### C7 — get_text: missing element vs. empty text -/

/-- C7: `handleGetText` on a selector matching no element fails with
`Element {selector} not found` — a message containing the selector and the
words "not found", and distinct from the page-identifier NotFound message for
every page identifier — while a matching element whose text content is the
empty string succeeds with nothing after `Text from {selector}: `. -/
theorem get_text_element_not_found_and_empty (p : Provider) (a : ToolArgs)
    (s : ServerState) (pg : Nat) (hpg : alistGet s.pages a.pageId = some pg) :
    (p.queryResult pg a.selector = Except.ok none →
       handleGetText p a s []
         = (s, [Event.querySelector pg a.selector],
            Except.error ("Element " ++ a.selector ++ " not found")) ∧
       ∀ pid : String,
         ("Element " ++ a.selector ++ " not found")
           ≠ ("Page " ++ pid ++ " not found")) ∧
    (∀ el : Element, p.queryResult pg a.selector = Except.ok (some el) →
       el.textContent = some "" →
       handleGetText p a s []
         = (s, [Event.querySelector pg a.selector],
            Except.ok (textResponse ("Text from " ++ a.selector ++ ": ")))) := by
  constructor
  · intro h
    constructor
    · simp [handleGetText, M.bind, getPage, hpg, callP, h, throwErr]
    · intro pid heq
      have h2 := congrArg String.data heq
      simp [String.data_append] at h2
  · intro el h htc
    simp [handleGetText, M.bind, M.pure, getPage, hpg, callP, h, htc,
      interpolateNull, String.append_empty]

/-- C7 witness: with page `"a" ↦ 7`, a no-match query on selector `#x` fails
with `Element #x not found` and an empty-text element echoes the empty
string. -/
theorem get_text_witness :
    handleGetText { okProvider with queryResult := fun _ _ => Except.ok none }
        { pageId := "a", selector := "#x" } stateWithPage []
      = (stateWithPage, [Event.querySelector 7 "#x"],
         Except.error "Element #x not found") ∧
    handleGetText okProvider { pageId := "a", selector := "#x" } stateWithPage []
      = (stateWithPage, [Event.querySelector 7 "#x"],
         Except.ok (textResponse "Text from #x: ")) := by
  constructor
  · exact ((get_text_element_not_found_and_empty
      { okProvider with queryResult := fun _ _ => Except.ok none }
      { pageId := "a", selector := "#x" } stateWithPage 7 rfl).1 rfl).1
  · exact (get_text_element_not_found_and_empty okProvider
      { pageId := "a", selector := "#x" } stateWithPage 7 rfl).2
      { textContent := some "" } rfl rfl

/-! ### C8 — get_cookies: empty URL filter equals no filter -/

/-- C8: `handleGetCookies` with an explicitly empty URL list behaves exactly
as with no URL list: the JS conditional spreads the empty array into a
zero-argument `page.cookies()` call, so both runs are identical and both make
the unscoped no-argument cookie read (URL argument list `[]`), never a
"match nothing" read. -/
theorem get_cookies_empty_filter_eq_no_filter (p : Provider) (a : ToolArgs)
    (s : ServerState) :
    handleGetCookies p { a with urls := some [] } s []
      = handleGetCookies p { a with urls := none } s [] ∧
    (∀ pg, alistGet s.pages a.pageId = some pg →
       (handleGetCookies p { a with urls := some [] } s []).2.1
         = [Event.cookiesRead pg []] ∧
       (handleGetCookies p { a with urls := none } s []).2.1
         = [Event.cookiesRead pg []]) := by
  constructor
  · rfl
  · intro pg hpg
    constructor <;>
    · simp only [handleGetCookies, M.bind, M.pure, getPage, callP, cookiesCallUrls]
      simp only [hpg]
      rcases p.cookiesResult pg [] with e | cs <;> simp

/-- C8 witness: with page `"a" ↦ 7`, the two runs coincide and the provider
call made is the no-argument cookie read. -/
theorem get_cookies_empty_filter_witness :
    handleGetCookies okProvider { pageId := "a", urls := some [] } stateWithPage []
      = handleGetCookies okProvider { pageId := "a", urls := none } stateWithPage [] ∧
    (handleGetCookies okProvider { pageId := "a", urls := some [] } stateWithPage []).2.1
      = [Event.cookiesRead 7 []] := by
  have h := get_cookies_empty_filter_eq_no_filter okProvider
    { pageId := "a", urls := some [] } stateWithPage
  exact ⟨h.1, (h.2 7 rfl).1⟩

/-! ### C6 — request interception: block list and header merging -/

/-- Lookup in the spread merge when the override object binds the key: the
override's value wins. -/
theorem headerMerge_lookup_override (base over : List (String × String))
    (k : String) (v : String) (h : alistGet over k = some v) :
    alistGet (headerMerge base over) k = some v := by
  induction base with
  | nil => simpa [headerMerge] using h
  | cons kv rest ih =>
      obtain ⟨k0, v0⟩ := kv
      rcases hp : alistGet over k0 with _ | w
      · by_cases hk : k0 = k
        · subst hk
          rw [hp] at h
          exact absurd h (by simp)
        · simpa [headerMerge, List.filter_cons, hp, alistGet, hk] using ih
      · simpa [headerMerge, List.filter_cons, hp, alistGet] using ih

/-- Lookup in the spread merge when the override object does not bind the
key: the base object's value survives. -/
theorem headerMerge_lookup_base (base over : List (String × String))
    (k : String) (h : alistGet over k = none) :
    alistGet (headerMerge base over) k = alistGet base k := by
  induction base with
  | nil => simpa [headerMerge, alistGet] using h
  | cons kv rest ih =>
      obtain ⟨k0, v0⟩ := kv
      rcases hp : alistGet over k0 with _ | w
      · by_cases hk : k0 = k
        · subst hk
          simp [headerMerge, List.filter_cons, hp, alistGet]
        · simpa [headerMerge, List.filter_cons, hp, alistGet, hk] using ih
      · by_cases hk : k0 = k
        · subst hk
          rw [hp] at h
          exact absurd h (by simp)
        · simpa [headerMerge, List.filter_cons, hp, alistGet, hk] using ih

/-- C6: enabling interception with a block list and header overrides registers
the per-request callback with exactly those parameters, and for every
intercepted request the callback aborts it when its resource type is in the
block list, and otherwise continues it with its original headers merged with
the overrides, an override value winning on any key collision. -/
theorem interception_block_and_merge (p : Provider) (a : ToolArgs)
    (s : ServerState) (pg : Nat) (hpg : alistGet s.pages a.pageId = some pg)
    (hen : a.enable = true)
    (hset : p.setInterceptResult pg true = Except.ok ()) :
    handleSetRequestInterception p a s []
      = (s, [Event.setRequestInterception pg true,
             Event.onRequest pg a.blockResources a.modifyHeaders],
         Except.ok (textResponse
           ("Request interception enabled for page " ++ a.pageId))) ∧
    (∀ req : Request,
       (req.resourceType ∈ a.blockResources →
          interceptionCallback a.blockResources a.modifyHeaders req
            = RequestAction.abort) ∧
       (req.resourceType ∉ a.blockResources →
          interceptionCallback a.blockResources a.modifyHeaders req
            = RequestAction.cont (headerMerge req.headers a.modifyHeaders) ∧
          (∀ k v, alistGet a.modifyHeaders k = some v →
             alistGet (headerMerge req.headers a.modifyHeaders) k = some v) ∧
          (∀ k, alistGet a.modifyHeaders k = none →
             alistGet (headerMerge req.headers a.modifyHeaders) k
               = alistGet req.headers k))) := by
  constructor
  · simp [handleSetRequestInterception, M.bind, M.pure, getPage, hpg, callP,
      hen, hset, emit]
  · intro req
    constructor
    · intro hmem
      simp [interceptionCallback, List.elem_iff, hmem]
    · intro hmem
      refine ⟨?_, ?_, ?_⟩
      · simp [interceptionCallback, List.elem_iff, hmem]
      · intro k v hv
        exact headerMerge_lookup_override req.headers a.modifyHeaders k v hv
      · intro k hv
        exact headerMerge_lookup_base req.headers a.modifyHeaders k hv

/-- C6 witness: with page `"a" ↦ 7`, enabling with block list `["image"]` and
override `x-test: 1` registers that callback; an image request is aborted; a
document request with an `x-test: 0` header continues with the override
winning and other headers intact. -/
theorem interception_witness :
    handleSetRequestInterception okProvider
        { pageId := "a", blockResources := ["image"], modifyHeaders := [("x-test", "1")] }
        stateWithPage []
      = (stateWithPage,
         [Event.setRequestInterception 7 true,
          Event.onRequest 7 ["image"] [("x-test", "1")]],
         Except.ok (textResponse "Request interception enabled for page a")) ∧
    interceptionCallback ["image"] [("x-test", "1")]
        { resourceType := "image", headers := [] } = RequestAction.abort ∧
    interceptionCallback ["image"] [("x-test", "1")]
        { resourceType := "document", headers := [("accept", "x"), ("x-test", "0")] }
      = RequestAction.cont
          (headerMerge [("accept", "x"), ("x-test", "0")] [("x-test", "1")]) ∧
    alistGet (headerMerge [("accept", "x"), ("x-test", "0")] [("x-test", "1")]) "x-test"
      = some "1" ∧
    alistGet (headerMerge [("accept", "x"), ("x-test", "0")] [("x-test", "1")]) "accept"
      = some "x" := by
  have h := interception_block_and_merge okProvider
    { pageId := "a", blockResources := ["image"], modifyHeaders := [("x-test", "1")] }
    stateWithPage 7 rfl rfl rfl
  have himg := (h.2 ⟨"image", []⟩).1 (by decide)
  have hdoc := (h.2 ⟨"document", [("accept", "x"), ("x-test", "0")]⟩).2 (by decide)
  refine ⟨h.1, himg, hdoc.1, hdoc.2.1 "x-test" "1" (by decide), ?_⟩
  have := hdoc.2.2 "accept" (by decide)
  simpa using this

/-! ### C9 — launch is not atomic on provider failure -/

/-- C9: if the provider's launch (or connect) call throws while a prior
browser was active, `handleLaunch` has already closed the prior browser
(`browserClose` is in the trace) and already overwritten the recorded default
viewport with the failing call's viewport argument, while the session's
browser field still holds the prior, now-closed handle — it is never cleared
before reassignment — so the session is left referencing a dead browser. -/
theorem launch_not_atomic_on_failure (p : Provider) (a : ToolArgs)
    (s : ServerState) (b : Nat) (e : String) (hb : s.browser = some b)
    (hclose : p.browserCloseResult b = Except.ok ()) :
    (a.browserWSEndpoint = none → p.launchResult = Except.error e →
       handleLaunch p a s []
         = ({ s with currentViewport := a.viewport },
            [Event.browserClose b, Event.browserLaunch (buildLaunchOptions a)],
            Except.error e)) ∧
    (∀ ep, a.browserWSEndpoint = some ep → ep ≠ "" →
       p.connectResult = Except.error e →
       handleLaunch p a s []
         = ({ s with currentViewport := a.viewport },
            [Event.browserClose b, Event.browserConnect ep a.viewport],
            Except.error e)) := by
  constructor
  · intro hws hlaunch
    simp [handleLaunch, launchAfterClose, M.bind, M.pure, getS, hb, callP, hclose, modifyS, hws,
      strTruthy, hlaunch]
  · intro ep hep hne hconn
    have hst : strTruthy a.browserWSEndpoint = true := by
      simp [strTruthy, hep, hne]
    simp [handleLaunch, launchAfterClose, M.bind, M.pure, getS, hb, callP, hclose, modifyS, hst,
      hep, hconn, strTruthy, hne]

/-- C9 witness: with browser 5 active and the provider's launch failing, the
session keeps the dead handle 5 while the stored viewport has been
overwritten and the close already happened. -/
theorem launch_not_atomic_witness :
    handleLaunch
        { okProvider with launchResult := Except.error "spawn failed" }
        { viewport := some { width := 800, height := 600 } } stateWithPage []
      = ({ stateWithPage with currentViewport := some { width := 800, height := 600 } },
         [Event.browserClose 5,
          Event.browserLaunch
            (buildLaunchOptions { viewport := some { width := 800, height := 600 } })],
         Except.error "spawn failed") := by
  exact (launch_not_atomic_on_failure
    { okProvider with launchResult := Except.error "spawn failed" }
    { viewport := some { width := 800, height := 600 } }
    stateWithPage 5 "spawn failed" rfl rfl).1 rfl rfl

/-! ### C4 — missing page identifiers fail with `Page {id} not found` -/

/-- The tool names whose handlers resolve a page identifier first. -/
def pageIdToolNames : List String :=
  [ "puppeteer_navigate", "puppeteer_click", "puppeteer_type", "puppeteer_get_text"
  , "puppeteer_screenshot", "puppeteer_evaluate", "puppeteer_wait_for_selector"
  , "puppeteer_close_page", "puppeteer_set_cookies", "puppeteer_get_cookies"
  , "puppeteer_delete_cookies", "puppeteer_set_request_interception" ]

/-- A key absent from an association list's key set looks up to nothing. -/
theorem alistGet_of_not_mem_keys {α : Type} (m : List (String × α)) (id : String)
    (h : id ∉ m.map Prod.fst) : alistGet m id = none := by
  induction m with
  | nil => rfl
  | cons kv rest ih =>
      simp only [List.map_cons, List.mem_cons, not_or] at h
      obtain ⟨k, v⟩ := kv
      simp only [alistGet]
      rw [if_neg (fun hk => h.1 hk.symm)]
      exact ih h.2

/-- `Map.set` followed by a lookup of the same key yields the new value. -/
theorem alistGet_set_self {α : Type} (m : List (String × α)) (id : String) (a : α) :
    alistGet (alistSet m id a) id = some a := by
  induction m with
  | nil => simp [alistSet, alistGet]
  | cons kv rest ih =>
      obtain ⟨k, v⟩ := kv
      by_cases hk : k = id
      · simp [alistSet, hk, alistGet]
      · simp [alistSet, hk, alistGet, ih]

/-- With unique keys (as in a JS `Map`), `Map.set` then `Map.delete` of the
same key leaves no binding for it. -/
theorem alistGet_delete_set {α : Type} (m : List (String × α)) (id : String)
    (a : α) (hnd : (m.map Prod.fst).Nodup) :
    alistGet (alistDelete (alistSet m id a) id) id = none := by
  induction m with
  | nil => simp [alistSet, alistDelete, alistGet]
  | cons kv rest ih =>
      obtain ⟨k, v⟩ := kv
      simp only [List.map_cons, List.nodup_cons] at hnd
      obtain ⟨hk0, hrest⟩ := hnd
      by_cases hk : k = id
      · subst hk
        simp only [alistSet, if_pos rfl, alistDelete, if_pos rfl]
        exact alistGet_of_not_mem_keys rest k hk0
      · simp only [alistSet, if_neg hk, alistDelete, if_neg hk, alistGet,
          if_neg hk]
        exact ih hrest

/-- C4: every page-identifier-taking operation on an identifier absent from
the tab mapping fails with `Page {id} not found`, leaving the session state
untouched; and after `new_page(id)` followed by `close_page(id)`, a second
`close_page(id)` fails this way because the first close removed the binding. -/
theorem missing_page_identifier_not_found (p : Provider) (s : ServerState) :
    (∀ name ∈ pageIdToolNames, ∀ a : ToolArgs,
       alistGet s.pages a.pageId = none →
       handleToolCall p name a s []
         = (s, [], Except.error ("Page " ++ a.pageId ++ " not found"))) ∧
    (∀ (a : ToolArgs) (b pg : Nat), (s.pages.map Prod.fst).Nodup →
       s.browser = some b →
       p.newPageResult b = Except.ok pg →
       (∀ v, p.setViewportResult pg v = Except.ok ()) →
       p.pageCloseResult pg = Except.ok () →
       handleClosePage p a (handleClosePage p a (handleNewPage p a s []).1 []).1 []
         = ((handleClosePage p a (handleNewPage p a s []).1 []).1, [],
            Except.error ("Page " ++ a.pageId ++ " not found"))) := by
  constructor
  · intro name hname a hpg
    fin_cases hname <;>
      simp [handleToolCall, handleNavigate, handleClick, handleType, handleGetText,
        handleScreenshot, handleEvaluate, handleWaitForSelector, handleClosePage,
        handleSetCookies, handleGetCookies, handleDeleteCookies,
        handleSetRequestInterception, M.bind, getPage, hpg]
  · intro a b pg hnd hb hnp hsv hclose
    have h1 : (handleNewPage p a s []).1
        = { s with pages := alistSet s.pages a.pageId pg } := by
      rcases hcv : s.currentViewport with _ | v <;>
        simp [handleNewPage, M.bind, M.pure, requireBrowser, hb, callP, hnp,
          getS, modifyS, emit, hcv, hsv]
    rw [h1]
    have h2 : (handleClosePage p a { s with pages := alistSet s.pages a.pageId pg } []).1
        = { s with pages := alistDelete (alistSet s.pages a.pageId pg) a.pageId } := by
      simp [handleClosePage, M.bind, M.pure, getPage, alistGet_set_self, hclose,
        callP, modifyS, emit]
    rw [h2]
    have hnone : alistGet (alistDelete (alistSet s.pages a.pageId pg) a.pageId) a.pageId
        = none := alistGet_delete_set s.pages a.pageId pg hnd
    simp [handleClosePage, M.bind, getPage, hnone]

/-- C4 witness: navigating to the unregistered page `missing` fails with
`Page missing not found` and leaves the fresh session unchanged; and after
creating then closing page `x`, a second `close_page("x")` fails the same
way. -/
theorem missing_page_identifier_witness :
    handleToolCall okProvider "puppeteer_navigate" { pageId := "missing" } createState []
      = (createState, [], Except.error "Page missing not found") ∧
    handleClosePage okProvider { pageId := "x" }
        (handleClosePage okProvider { pageId := "x" }
          (handleNewPage okProvider { pageId := "x" } stateWithPage []).1 []).1 []
      = ((handleClosePage okProvider { pageId := "x" }
          (handleNewPage okProvider { pageId := "x" } stateWithPage []).1 []).1, [],
         Except.error "Page x not found") := by
  constructor
  · exact (missing_page_identifier_not_found okProvider createState).1
      "puppeteer_navigate" (by decide) { pageId := "missing" } rfl
  · exact (missing_page_identifier_not_found okProvider stateWithPage).2
      { pageId := "x" } 5 6 (by decide) rfl rfl (fun _ => rfl) rfl

/-! ### Compositional facts about handler computations -/

/-- A computation that never mutates the session state. -/
def stateConst {α : Type} (m : M α) : Prop := ∀ s t, (m s t).1 = s

/-- `M.pure` leaves the state unchanged. -/
theorem stateConst_pure {α : Type} (x : α) : stateConst (M.pure x) :=
  fun _ _ => rfl

/-- A provider call leaves the state unchanged. -/
theorem stateConst_callP {α : Type} (e : Event) (r : Except String α) :
    stateConst (callP e r) :=
  fun _ _ => rfl

/-- Sequencing two state-preserving computations preserves the state. -/
theorem stateConst_bind {α β : Type} {x : M α} {f : α → M β}
    (hx : stateConst x) (hf : ∀ a, stateConst (f a)) :
    stateConst (M.bind x f) := by
  intro s t
  have h := hx s t
  unfold M.bind
  rcases hxe : x s t with ⟨s1, t1, r⟩
  rw [hxe] at h
  rcases r with e | a2
  · simpa using h
  · simp only at h
    rw [← h]
    simpa using hf a2 s1 t1

/-- Both branches state-preserving makes the conditional so. -/
theorem stateConst_ite {α : Type} {c : Prop} [Decidable c] {x y : M α}
    (hx : stateConst x) (hy : stateConst y) : stateConst (if c then x else y) := by
  by_cases h : c
  · rw [if_pos h]; exact hx
  · rw [if_neg h]; exact hy

/-- The first-tab setup block of launch only calls the provider: it never
mutates the session state. -/
theorem stateConst_launchSetupPage (p : Provider) (a : ToolArgs) (pg : Nat) :
    stateConst (launchSetupPage p a pg) := by
  unfold launchSetupPage
  apply stateConst_bind
  · cases a.viewport
    · exact stateConst_pure _
    · exact stateConst_callP _ _
  · intro _
    apply stateConst_bind
    · exact stateConst_ite (stateConst_callP _ _)
        (stateConst_ite (stateConst_callP _ _) (stateConst_pure _))
    · intro _
      exact stateConst_ite (stateConst_callP _ _) (stateConst_pure _)

/-- The post-launch setup phase never mutates the session state. -/
theorem stateConst_launchPostSetup (p : Provider) (a : ToolArgs) (b : Nat) :
    stateConst (launchPostSetup p a b) := by
  unfold launchPostSetup
  apply stateConst_ite
  · apply stateConst_bind (stateConst_callP _ _)
    intro pages
    cases pages
    · exact stateConst_pure _
    · exact stateConst_launchSetupPage _ _ _
  · exact stateConst_pure _

/-- Recognizer for `browserClose` events. -/
def isCloseEvent : Event → Bool
  | Event.browserClose _ => true
  | _ => false

/-- Number of browser-close calls in a trace. -/
def closeCount (t : List Event) : Nat := t.countP isCloseEvent

/-- Close counting is additive over trace concatenation. -/
theorem closeCount_append (t1 t2 : List Event) :
    closeCount (t1 ++ t2) = closeCount t1 + closeCount t2 := by
  simp [closeCount, List.countP_append]

/-- A computation that only appends to the trace and appends no
browser-close event. -/
def noCloseExt {α : Type} (m : M α) : Prop :=
  ∀ s t, ∃ t2, (m s t).2.1 = t ++ t2 ∧ closeCount t2 = 0

/-- `M.pure` appends nothing. -/
theorem noCloseExt_pure {α : Type} (x : α) : noCloseExt (M.pure x) :=
  fun _ t => ⟨[], by simp [M.pure], rfl⟩

/-- A provider call for a non-close event appends only that event. -/
theorem noCloseExt_callP {α : Type} (e : Event) (r : Except String α)
    (h : isCloseEvent e = false) : noCloseExt (callP e r) :=
  fun _ _ => ⟨[e], rfl, by simp [closeCount, h]⟩

/-- A registration step for a non-close event appends only that event. -/
theorem noCloseExt_emit (e : Event) (h : isCloseEvent e = false) :
    noCloseExt (emit e) :=
  fun _ _ => ⟨[e], rfl, by simp [closeCount, h]⟩

/-- A state mutation appends nothing. -/
theorem noCloseExt_modifyS (f : ServerState → ServerState) :
    noCloseExt (modifyS f) :=
  fun _ t => ⟨[], by simp [modifyS], rfl⟩

/-- Sequencing close-free computations is close-free. -/
theorem noCloseExt_bind {α β : Type} {x : M α} {f : α → M β}
    (hx : noCloseExt x) (hf : ∀ a, noCloseExt (f a)) :
    noCloseExt (M.bind x f) := by
  intro s t
  obtain ⟨t1, ht1, hc1⟩ := hx s t
  unfold M.bind
  rcases hxe : x s t with ⟨s1, tt, r⟩
  rw [hxe] at ht1
  simp only at ht1
  rcases r with e | a2
  · exact ⟨t1, by simpa using ht1, hc1⟩
  · obtain ⟨t2, ht2, hc2⟩ := hf a2 s1 tt
    refine ⟨t1 ++ t2, ?_, ?_⟩
    · show (f a2 s1 tt).2.1 = t ++ (t1 ++ t2)
      rw [ht2, ht1, List.append_assoc]
    · rw [closeCount_append, hc1, hc2]

/-- Both branches close-free makes the conditional close-free. -/
theorem noCloseExt_ite {α : Type} {c : Prop} [Decidable c] {x y : M α}
    (hx : noCloseExt x) (hy : noCloseExt y) : noCloseExt (if c then x else y) := by
  by_cases h : c
  · rw [if_pos h]; exact hx
  · rw [if_neg h]; exact hy

/-- The first-tab setup block never calls browser close. -/
theorem noCloseExt_launchSetupPage (p : Provider) (a : ToolArgs) (pg : Nat) :
    noCloseExt (launchSetupPage p a pg) := by
  unfold launchSetupPage
  apply noCloseExt_bind
  · cases a.viewport
    · exact noCloseExt_pure _
    · exact noCloseExt_callP _ _ rfl
  · intro _
    apply noCloseExt_bind
    · exact noCloseExt_ite (noCloseExt_callP _ _ rfl)
        (noCloseExt_ite (noCloseExt_callP _ _ rfl) (noCloseExt_pure _))
    · intro _
      exact noCloseExt_ite (noCloseExt_callP _ _ rfl) (noCloseExt_pure _)

/-- The post-launch setup phase never calls browser close. -/
theorem noCloseExt_launchPostSetup (p : Provider) (a : ToolArgs) (b : Nat) :
    noCloseExt (launchPostSetup p a b) := by
  unfold launchPostSetup
  apply noCloseExt_ite
  · apply noCloseExt_bind
    · exact noCloseExt_callP _ _ rfl
    · intro pages
      cases pages
      · exact noCloseExt_pure _
      · exact noCloseExt_launchSetupPage _ _ _
  · exact noCloseExt_pure _

/-- Everything launch does after closing the prior browser never calls
browser close again. -/
theorem noCloseExt_launchAfterClose (p : Provider) (a : ToolArgs) :
    noCloseExt (launchAfterClose p a) := by
  unfold launchAfterClose
  apply noCloseExt_bind (noCloseExt_modifyS _)
  intro _
  apply noCloseExt_bind
  · apply noCloseExt_ite
    · exact noCloseExt_callP _ _ rfl
    · exact noCloseExt_callP _ _ rfl
  · intro b2
    apply noCloseExt_bind (noCloseExt_modifyS _)
    intro _
    apply noCloseExt_bind (noCloseExt_launchPostSetup _ _ _)
    intro _
    exact noCloseExt_pure _

/-! ### C3 — launch closes the prior browser exactly once, first -/

/-- C3: launching while a browser handle is present makes the provider close
call on the prior handle as the very first step of the whole run — so its
close completes before the new instance is launched or attached — and the
full trace contains exactly one browser-close call, keeping at most one
browser handle live at any time. -/
theorem launch_closes_prior_exactly_once (p : Provider) (a : ToolArgs)
    (s : ServerState) (b : Nat) (hb : s.browser = some b) :
    (handleLaunch p a s []).2.1.head? = some (Event.browserClose b) ∧
    closeCount (handleLaunch p a s []).2.1 = 1 := by
  rcases hr : p.browserCloseResult b with e | u
  · have heq : handleLaunch p a s [] = (s, [Event.browserClose b], Except.error e) := by
      simp [handleLaunch, M.bind, getS, hb, callP, hr]
    rw [heq]
    exact ⟨rfl, rfl⟩
  · have heq : handleLaunch p a s []
        = launchAfterClose p a s [Event.browserClose b] := by
      simp [handleLaunch, M.bind, getS, hb, callP, hr]
    rw [heq]
    obtain ⟨t2, ht2, hc2⟩ := noCloseExt_launchAfterClose p a s [Event.browserClose b]
    rw [ht2]
    refine ⟨rfl, ?_⟩
    rw [closeCount_append, hc2]
    simp [closeCount, List.countP_cons, List.countP_nil, isCloseEvent]

/-- C3 witness: launching over the active browser 5 puts its close first in
the trace and the whole run closes exactly one browser. -/
theorem launch_closes_prior_witness :
    (handleLaunch okProvider {} stateWithPage []).2.1.head?
      = some (Event.browserClose 5) ∧
    closeCount (handleLaunch okProvider {} stateWithPage []).2.1 = 1 :=
  launch_closes_prior_exactly_once okProvider {} stateWithPage 5 rfl

/-! ### C2 — default-viewport propagation to new pages -/

/-- A computation whose final state always carries the same recorded
viewport as its initial state. -/
def viewportConst {α : Type} (m : M α) : Prop :=
  ∀ s t, ((m s t).1).currentViewport = s.currentViewport

/-- A state-preserving computation preserves the recorded viewport. -/
theorem viewportConst_of_stateConst {α : Type} {m : M α} (h : stateConst m) :
    viewportConst m := by
  intro s t
  rw [h s t]

/-- Storing the new browser handle does not touch the recorded viewport. -/
theorem viewportConst_modifyBrowser (b2 : Nat) :
    viewportConst (modifyS fun st => { st with browser := some b2 }) :=
  fun _ _ => rfl

/-- Sequencing viewport-preserving computations preserves the viewport. -/
theorem viewportConst_bind {α β : Type} {x : M α} {f : α → M β}
    (hx : viewportConst x) (hf : ∀ a, viewportConst (f a)) :
    viewportConst (M.bind x f) := by
  intro s t
  have h := hx s t
  unfold M.bind
  rcases hxe : x s t with ⟨s1, t1, r⟩
  rw [hxe] at h
  simp only at h
  rcases r with e | a2
  · simpa using h
  · have h2 := hf a2 s1 t1
    simpa [h] using h2

/-- Both branches viewport-preserving makes the conditional so. -/
theorem viewportConst_ite {α : Type} {c : Prop} [Decidable c] {x y : M α}
    (hx : viewportConst x) (hy : viewportConst y) :
    viewportConst (if c then x else y) := by
  by_cases h : c
  · rw [if_pos h]; exact hx
  · rw [if_neg h]; exact hy

/-- After the post-close phase of launch — whatever the provider outcomes —
the session's recorded viewport is exactly the launch call's viewport
argument: the assignment happens first and nothing afterwards touches it. -/
theorem launchAfterClose_viewport (p : Provider) (a : ToolArgs) :
    ∀ s t, ((launchAfterClose p a s t).1).currentViewport = a.viewport := by
  intro s t
  have h2 : viewportConst (M.bind
      (if strTruthy a.browserWSEndpoint then
         callP (Event.browserConnect (a.browserWSEndpoint.getD "") a.viewport)
           p.connectResult
       else
         callP (Event.browserLaunch (buildLaunchOptions a)) p.launchResult) fun b =>
      M.bind (modifyS fun st => { st with browser := some b }) fun _ =>
      M.bind (launchPostSetup p a b) fun _ =>
      M.pure (textResponse
        ((if strTruthy a.browserWSEndpoint then "Connected to existing browser"
          else "Browser launched") ++ " successfully"))) := by
    apply viewportConst_bind
    · apply viewportConst_ite <;>
        exact viewportConst_of_stateConst (stateConst_callP _ _)
    · intro b2
      apply viewportConst_bind
      · exact viewportConst_modifyBrowser b2
      · intro _
        apply viewportConst_bind
        · exact viewportConst_of_stateConst (stateConst_launchPostSetup p a b2)
        · intro _
          exact viewportConst_of_stateConst (stateConst_pure _)
  have h3 := h2 { s with currentViewport := a.viewport } t
  simpa [launchAfterClose, M.bind, modifyS] using h3

/-- C2: a launch supplying viewport V leaves `currentViewport = V` recorded
(and no viewport leaves it absent); every page then created by `new_page`
before any further launch — `new_page` itself never changes the recorded
viewport — gets exactly one `setViewport(V)` provider call, made at creation
time and strictly before the page is registered in the tab mapping, while
with no recorded viewport `new_page` makes no viewport call at all. -/
theorem viewport_propagation (p : Provider) (a : ToolArgs) (s : ServerState) :
    (∀ s' t r, handleLaunch p a s [] = (s', t, Except.ok r) →
       s'.currentViewport = a.viewport) ∧
    (∀ b pg, s.browser = some b → p.newPageResult b = Except.ok pg →
       ((∀ v, p.setViewportResult pg v = Except.ok ()) →
          (handleNewPage p a s []).1.currentViewport = s.currentViewport) ∧
       (∀ V, s.currentViewport = some V → p.setViewportResult pg V = Except.ok () →
          handleNewPage p a s []
            = ({ s with pages := alistSet s.pages a.pageId pg },
               [Event.newPage b, Event.setViewport pg V,
                Event.registerPage a.pageId pg],
               Except.ok (textResponse
                 ("Page " ++ a.pageId ++ " created successfully")))) ∧
       (s.currentViewport = none →
          handleNewPage p a s []
            = ({ s with pages := alistSet s.pages a.pageId pg },
               [Event.newPage b, Event.registerPage a.pageId pg],
               Except.ok (textResponse
                 ("Page " ++ a.pageId ++ " created successfully"))))) := by
  constructor
  · intro s' t r h
    rcases hbr : s.browser with _ | b
    · have heq : handleLaunch p a s [] = launchAfterClose p a s [] := by
        simp [handleLaunch, M.bind, M.pure, getS, hbr]
      rw [heq] at h
      have hv := launchAfterClose_viewport p a s []
      rw [h] at hv
      exact hv
    · rcases hr : p.browserCloseResult b with e | u
      · have heq : handleLaunch p a s []
            = (s, [Event.browserClose b], Except.error e) := by
          simp [handleLaunch, M.bind, getS, hbr, callP, hr]
        rw [heq] at h
        simp at h
      · have heq : handleLaunch p a s []
            = launchAfterClose p a s [Event.browserClose b] := by
          simp [handleLaunch, M.bind, getS, hbr, callP, hr]
        rw [heq] at h
        have hv := launchAfterClose_viewport p a s [Event.browserClose b]
        rw [h] at hv
        exact hv
  · intro b pg hb hnp
    refine ⟨?_, ?_, ?_⟩
    · intro hsv
      rcases hcv : s.currentViewport with _ | V <;>
        simp [handleNewPage, M.bind, M.pure, requireBrowser, hb, callP, hnp,
          getS, modifyS, emit, hcv, hsv]
    · intro V hcv hsv
      simp [handleNewPage, M.bind, M.pure, requireBrowser, hb, callP, hnp,
        getS, modifyS, emit, hcv, hsv]
    · intro hcv
      simp [handleNewPage, M.bind, M.pure, requireBrowser, hb, callP, hnp,
        getS, modifyS, emit, hcv]

/-- The viewport used by the C2 witness. -/
def vp800 : Viewport := { width := 800, height := 600 }

/-- The session of the C2 witness: browser 5 active, page `"a" ↦ 7`, and
viewport `vp800` recorded by the last launch. -/
def stateVP : ServerState := { stateWithPage with currentViewport := some vp800 }

/-- C2 witness: a launch with viewport `vp800` on a fresh session records it,
and a `new_page("b")` under a recorded `vp800` applies `setViewport` exactly
once, between creation and registration, while with no recorded viewport no
viewport call is made. -/
theorem viewport_propagation_witness :
    ({ createState with browser := some 100, currentViewport := some vp800 }
        : ServerState).currentViewport
      = ({ viewport := some vp800 } : ToolArgs).viewport ∧
    handleNewPage okProvider { pageId := "b" } stateVP []
      = ({ stateVP with pages := alistSet stateVP.pages "b" 6 },
         [Event.newPage 5, Event.setViewport 6 vp800, Event.registerPage "b" 6],
         Except.ok (textResponse "Page b created successfully")) ∧
    handleNewPage okProvider { pageId := "b" } stateWithPage []
      = ({ stateWithPage with pages := alistSet stateWithPage.pages "b" 6 },
         [Event.newPage 5, Event.registerPage "b" 6],
         Except.ok (textResponse "Page b created successfully")) := by
  refine ⟨?_, ?_, ?_⟩
  · exact (viewport_propagation okProvider { viewport := some vp800 } createState).1
      { createState with browser := some 100, currentViewport := some vp800 }
      [Event.browserLaunch (buildLaunchOptions { viewport := some vp800 }),
       Event.pagesQuery 100, Event.setViewport 0 vp800]
      (textResponse "Browser launched successfully") rfl
  · exact ((viewport_propagation okProvider { pageId := "b" } stateVP).2
      5 6 rfl rfl).2.1 vp800 rfl rfl
  · exact ((viewport_propagation okProvider { pageId := "b" } stateWithPage).2
      5 6 rfl rfl).2.2 rfl

end PuppeteerMCP
